import Mathlib

/-!
Shallow embedding of the happy-server real-time consistency engine:
the socket command handlers of `sources/app/api/socket/sessionUpdateHandler.ts`
and the `POST /v1/account/settings` route of
`sources/app/api/routes/accountRoutes.ts`, together with the storage rows they
touch. Machine-level JavaScript values are modelled by an explicit dynamic
value type; the relational store is modelled as explicit state threaded through
each handler, with the storage collaborator's atomic conditional update
(`updateMany` with a version guard) modelled as a filtered in-place map that
reports its match count.
-/

/-- A dynamic JavaScript value, as received in an untyped socket payload. -/
inductive JsVal where
  | jnull
  | jundef
  | jstr (s : String)
  | jnum (n : Int)
  | jbool (b : Bool)
deriving DecidableEq, Repr

/-- JavaScript truthiness of a `JsVal` (NaN is not modelled). -/
def truthy : JsVal → Bool
  | .jnull => false
  | .jundef => false
  | .jstr s => s ≠ ""
  | .jnum n => n ≠ 0
  | .jbool b => b

/-- `typeof v === 'string'`. -/
def isStr : JsVal → Bool
  | .jstr _ => true
  | _ => false

/-- `typeof v === 'number'`. -/
def isNum : JsVal → Bool
  | .jnum _ => true
  | _ => false

/-- A row of the `Session` table, restricted to the fields the handlers read
or write. Times are epoch milliseconds. -/
structure Session where
  id : String
  accountId : String
  metadata : String
  metadataVersion : Int
  agentState : Option String
  agentStateVersion : Int
  lastMessageAt : Int
  lastActiveAt : Int
  active : Bool
deriving DecidableEq, Repr

/-- A row of the `SessionMessage` table. `content` is the encrypted payload
stored as `{t: encrypted, c: message}`; only `c` is kept. -/
structure SessionMessage where
  sessionId : String
  seq : Int
  content : JsVal
  localId : Option String
deriving DecidableEq, Repr

/-- A row of the `Account` table, restricted to the settings fields. -/
structure Account where
  id : String
  settings : Option String
  settingsVersion : Int
  updatedAt : Int
deriving DecidableEq, Repr

/-- The storage state visible to the embedded handlers, plus the two
sequence-counter families and the presence cache.
`userSeqs`/`sessionSeqs` are the persisted per-account and per-session
sequence counters; `lastSeen` is the ActivityCache in-memory last-seen map. -/
structure Store where
  sessions : List Session
  messages : List SessionMessage
  accounts : List Account
  userSeqs : String → Int
  sessionSeqs : String → Int
  lastSeen : String → Option Int

/-- `db.session.findUnique({where: {id: sid, accountId: uid}})`:
first row matching both keys. -/
def findSession (rows : List Session) (sid uid : String) : Option Session :=
  rows.find? (fun r => r.id = sid ∧ r.accountId = uid)

/-- `db.account.findUnique({where: {id: uid}})`. -/
def findAccount (rows : List Account) (uid : String) : Option Account :=
  rows.find? (fun r => r.id = uid)

/-- The storage collaborator's atomic conditional update (`updateMany` with a
guard): apply `f` to every row satisfying `p` and report how many matched.
The whole step is one atomic storage operation. -/
def updateWhere {α : Type} (rows : List α) (p : α → Bool) (f : α → α) :
    List α × Nat :=
  (rows.map (fun r => if p r then f r else r), rows.countP p)

/-- Modelled from the spec: `allocateUserSeq` (sources/storage/seq is not in
the provided sources) is an atomic increment-and-return of the persisted
per-account counter (spec section 4.3, SequenceAllocator). -/
def allocateUserSeq (st : Store) (uid : String) : Store × Int :=
  let n := st.userSeqs uid + 1
  ({ st with userSeqs := fun u => if u = uid then n else st.userSeqs u }, n)

/-- Modelled from the spec: `allocateSessionSeq` is an atomic
increment-and-return of the persisted per-session counter (spec 4.3). -/
def allocateSessionSeq (st : Store) (sid : String) : Store × Int :=
  let n := st.sessionSeqs sid + 1
  ({ st with sessionSeqs := fun s => if s = sid then n else st.sessionSeqs s }, n)

/-- Modelled from the spec: `activityCache.isSessionValid(sid, userId)`
(sources/app/presence/sessionCache is not in the provided sources) is a
session-ownership check (spec 4.5); its short-TTL memoization is not
modelled. -/
def isSessionValid (st : Store) (sid uid : String) : Bool :=
  (findSession st.sessions sid uid).isSome

/-- Modelled from the spec: `activityCache.queueSessionUpdate(sid, t)`
updates the in-memory last-seen value immediately (spec 4.5); the debounced
durable flush is not modelled. -/
def queueSessionUpdate (st : Store) (sid : String) (t : Int) : Store :=
  { st with lastSeen := fun s => if s = sid then some t else st.lastSeen s }

/-- A durable update payload, as assembled by the eventRouter builder calls in
the handlers (spec 4.4: each durable kind carries kind, seq, idempotency
token and value). -/
inductive Payload where
  | updateSession (sid : String) (seq : Int) (tok : String)
      (metadataUpdate : Option (String × Int))
      (agentStateUpdate : Option (Option String × Int))
  | newMessage (msg : SessionMessage) (sid : String) (seq : Int) (tok : String)
  | accountUpdate (uid : String) (settings : Option String × Int) (seq : Int)
      (tok : String)
deriving DecidableEq, Repr

/-- An ephemeral session-activity payload (`buildSessionActivityEphemeral`):
no seq, no token. The `thinking` field keeps the JavaScript semantics of
`thinking || false`. -/
structure ActivityEphemeral where
  sid : String
  active : Bool
  t : Int
  thinking : JsVal
deriving DecidableEq, Repr

/-- Reply delivered through the `update-metadata` acknowledgement callback.
`noReply` records the paths that return without invoking the callback. -/
inductive MetaReply where
  | errorReply
  | noReply
  | versionMismatch (version : Int) (metadata : String)
  | success (version : Int) (metadata : String)
deriving DecidableEq, Repr

/-- Raw input of the `update-metadata` socket command. -/
structure MetaInput where
  sid : JsVal
  metadata : JsVal
  expectedVersion : JsVal
deriving DecidableEq, Repr

/-- Core of the `update-metadata` handler
(sessionUpdateHandler.ts lines 12-72). `snap` is the row returned by the
initial `findUnique` read; `st` is the store at the moment the conditional
`updateMany` executes. Separating the two captures the interleaving where a
concurrent write commits between the handler's read and its update. A truthy
but non-string `sid` makes the store lookup throw, which the catch block turns
into an error reply. -/
def updateMetadataCore (userId tok : String) (snap : Option Session)
    (st : Store) (data : MetaInput) : Store × MetaReply × List Payload :=
  if ¬ truthy data.sid ∨ ¬ isStr data.metadata ∨ ¬ isNum data.expectedVersion then
    (st, .errorReply, [])
  else
    match data.sid, data.metadata, data.expectedVersion with
    | .jstr sid, .jstr metadata, .jnum expectedVersion =>
      match snap with
      | none => (st, .noReply, [])
      | some session =>
        if session.metadataVersion ≠ expectedVersion then
          (st, .versionMismatch session.metadataVersion session.metadata, [])
        else
          let upd := updateWhere st.sessions
            (fun r => r.id = sid ∧ r.metadataVersion = expectedVersion)
            (fun r => { r with metadata := metadata,
                               metadataVersion := expectedVersion + 1 })
          if upd.2 = 0 then
            (st, .versionMismatch session.metadataVersion session.metadata, [])
          else
            let st1 := { st with sessions := upd.1 }
            let alloc := allocateUserSeq st1 userId
            (alloc.1, .success (expectedVersion + 1) metadata,
              [.updateSession sid alloc.2 tok
                (some (metadata, expectedVersion + 1)) none])
    | _, _, _ => (st, .errorReply, [])

/-- The `update-metadata` handler in a run with no interleaved writer: the
initial read and the conditional update see the same store. -/
def updateMetadata (userId tok : String) (st : Store) (data : MetaInput) :
    Store × MetaReply × List Payload :=
  updateMetadataCore userId tok
    (match data.sid with
     | .jstr sid => findSession st.sessions sid userId
     | _ => none) st data

/-- Reply delivered through the `update-state` acknowledgement callback. -/
inductive StateReply where
  | errorReply
  | versionMismatch (version : Int) (agentState : Option String)
  | success (version : Int) (agentState : Option String)
deriving DecidableEq, Repr

/-- Raw input of the `update-state` socket command. -/
structure StateInput where
  sid : JsVal
  agentState : JsVal
  expectedVersion : JsVal
deriving DecidableEq, Repr

/-- `typeof agentState === 'string' || agentState === null`, with the matched
string-or-null extracted. -/
def strOrNull : JsVal → Option (Option String)
  | .jstr s => some (some s)
  | .jnull => some none
  | _ => none

/-- Core of the `update-state` handler (sessionUpdateHandler.ts lines 74-138),
with the same read/update split as `updateMetadataCore`. Unlike
`update-metadata`, a missing session is reported through the callback as an
error reply. -/
def updateStateCore (userId tok : String) (snap : Option Session)
    (st : Store) (data : StateInput) : Store × StateReply × List Payload :=
  if ¬ truthy data.sid ∨ (strOrNull data.agentState).isNone ∨
      ¬ isNum data.expectedVersion then
    (st, .errorReply, [])
  else
    match data.sid, strOrNull data.agentState, data.expectedVersion with
    | .jstr sid, some agentState, .jnum expectedVersion =>
      match snap with
      | none => (st, .errorReply, [])
      | some session =>
        if session.agentStateVersion ≠ expectedVersion then
          (st, .versionMismatch session.agentStateVersion session.agentState, [])
        else
          let upd := updateWhere st.sessions
            (fun r => r.id = sid ∧ r.agentStateVersion = expectedVersion)
            (fun r => { r with agentState := agentState,
                               agentStateVersion := expectedVersion + 1 })
          if upd.2 = 0 then
            (st, .versionMismatch session.agentStateVersion session.agentState,
              [])
          else
            let st1 := { st with sessions := upd.1 }
            let alloc := allocateUserSeq st1 userId
            (alloc.1, .success (expectedVersion + 1) agentState,
              [.updateSession sid alloc.2 tok none
                (some (agentState, expectedVersion + 1))])
    | _, _, _ => (st, .errorReply, [])

/-- The `update-state` handler in a run with no interleaved writer. -/
def updateState (userId tok : String) (st : Store) (data : StateInput) :
    Store × StateReply × List Payload :=
  updateStateCore userId tok
    (match data.sid with
     | .jstr sid => findSession st.sessions sid userId
     | _ => none) st data

/-- Reply of `POST /v1/account/settings`. `failure500` is the 500 response. -/
inductive SettingsReply where
  | failure500
  | versionMismatch (currentVersion : Int) (currentSettings : Option String)
  | success (version : Int)
deriving DecidableEq, Repr

/-- `account?.settings || null`: a JavaScript falsy coercion, so a missing
account, a null settings column and an empty-string settings column all
report null. -/
def settingsOrNull : Option Account → Option String
  | none => none
  | some a =>
    match a.settings with
    | some s => if s = "" then none else some s
    | none => none

/-- `account?.settingsVersion || 0` (for an integer version `v || 0 = v`). -/
def versionOrZero : Option Account → Int
  | none => 0
  | some a => a.settingsVersion

/-- Core of the `POST /v1/account/settings` route
(accountRoutes.ts, the update-settings handler). The body is already
zod-validated (`settings` string-or-null, non-negative integer
`expectedVersion`). `snap` is the row of the initial read; `st` is the store
at the conditional `updateMany`; `reread` is the store at the extra
`findUnique` that the zero-rows-matched branch performs. -/
def updateSettingsCore (userId tok : String) (snap : Option Account)
    (st : Store) (reread : Store) (settings : Option String)
    (expectedVersion : Int) (now : Int) :
    Store × SettingsReply × List Payload :=
  match snap with
  | none => (st, .failure500, [])
  | some currentUser =>
    if currentUser.settingsVersion ≠ expectedVersion then
      (st, .versionMismatch currentUser.settingsVersion currentUser.settings,
        [])
    else
      let upd := updateWhere st.accounts
        (fun a => a.id = userId ∧ a.settingsVersion = expectedVersion)
        (fun a => { a with settings := settings,
                           settingsVersion := expectedVersion + 1,
                           updatedAt := now })
      if upd.2 = 0 then
        let account := findAccount reread.accounts userId
        (st, .versionMismatch (versionOrZero account) (settingsOrNull account),
          [])
      else
        let st1 := { st with accounts := upd.1 }
        let alloc := allocateUserSeq st1 userId
        (alloc.1, .success (expectedVersion + 1),
          [.accountUpdate userId (settings, expectedVersion + 1) alloc.2 tok])

/-- The settings route in a run with no interleaved writer. -/
def updateSettings (userId tok : String) (st : Store) (settings : Option String)
    (expectedVersion : Int) (now : Int) :
    Store × SettingsReply × List Payload :=
  updateSettingsCore userId tok (findAccount st.accounts userId) st st settings
    expectedVersion now

/-- Raw input of the fire-and-forget `session-alive` command. -/
structure AliveInput where
  sid : JsVal
  time : JsVal
  thinking : JsVal
deriving DecidableEq, Repr

/-- `thinking || false`: JavaScript `||` returns its first operand when
truthy. -/
def thinkingOrFalse (v : JsVal) : JsVal :=
  if truthy v then v else .jbool false

/-- The `session-alive` handler (sessionUpdateHandler.ts lines 139-183).
Validation first, then the timestamp is clamped to `now` when in the future
and dropped when more than ten minutes in the past; a surviving heartbeat
checks session ownership, queues the presence write and emits one ephemeral
activity event. A truthy non-string `sid` makes the ownership lookup throw,
caught as a silent no-op. -/
def sessionAlive (userId : String) (now : Int) (st : Store)
    (data : AliveInput) : Store × List ActivityEphemeral :=
  if ¬ isNum data.time ∨ ¬ truthy data.sid then (st, [])
  else
    match data.time with
    | .jnum t0 =>
      let t := if t0 > now then now else t0
      if t < now - 1000 * 60 * 10 then (st, [])
      else
        match data.sid with
        | .jstr sid =>
          if isSessionValid st sid userId then
            (queueSessionUpdate st sid t,
              [⟨sid, true, t, thinkingOrFalse data.thinking⟩])
          else (st, [])
        | _ => (st, [])
    | _ => (st, [])

/-- Raw input of the fire-and-forget `session-end` command. -/
structure EndInput where
  sid : JsVal
  time : JsVal
deriving DecidableEq, Repr

/-- The `session-end` handler (sessionUpdateHandler.ts lines 253-294): the
same future-clamp and ten-minute discard applied to `time`, then the owned
session is marked inactive with `lastActiveAt` set to the clamped time and
one ephemeral inactivity event is emitted. -/
def sessionEnd (userId : String) (now : Int) (st : Store) (data : EndInput) :
    Store × List ActivityEphemeral :=
  match data.time with
  | .jnum t0 =>
    let t := if t0 > now then now else t0
    if t < now - 1000 * 60 * 10 then (st, [])
    else
      match data.sid with
      | .jstr sid =>
        match findSession st.sessions sid userId with
        | none => (st, [])
        | some _ =>
          ({ st with sessions := st.sessions.map (fun r =>
              if r.id = sid then { r with lastActiveAt := t, active := false }
              else r) },
            [⟨sid, false, t, .jbool false⟩])
      | _ => (st, [])
  | _ => (st, [])

/-- The `findFirst` filter of the duplicate check in the `message` handler:
`{sessionId: sid, localId: l}`. -/
def msgKey (sid l : String) (m : SessionMessage) : Bool :=
  m.sessionId = sid ∧ m.localId = some l

/-- Raw input of the `message` (append-message) socket command. -/
structure MsgInput where
  sid : JsVal
  message : JsVal
  localId : JsVal
deriving DecidableEq, Repr

/-- The `message` handler body (sessionUpdateHandler.ts lines 186-251), run
under the per-connection `receiveMessageLock`; sequential composition of
calls models the serialization the lock provides. A null or undefined
`message` throws at the `message.length` log call, caught as a no-op. The
handler acknowledges nothing: its value (`some existing` on the duplicate
path) is the return of the locked closure, which the socket layer discards.
Both sequence numbers are allocated before the duplicate-localId check; the
insert plus the `lastMessageAt` touch run as one transaction, followed by one
new-message durable update. -/
def messageHandler (userId : String) (now : Int) (tok : String) (st : Store)
    (data : MsgInput) : Store × Option SessionMessage × List Payload :=
  if data.message = .jnull ∨ data.message = .jundef then (st, none, [])
  else
    match data.sid with
    | .jstr sid =>
      match findSession st.sessions sid userId with
      | none => (st, none, [])
      | some _ =>
        let useLocalId : Option String :=
          match data.localId with
          | .jstr l => some l
          | _ => none
        let a1 := allocateUserSeq st userId
        let a2 := allocateSessionSeq a1.1 sid
        let st2 := a2.1
        let existing : Option SessionMessage :=
          match useLocalId with
          | some l => st2.messages.find? (msgKey sid l)
          | none => none
        match existing with
        | some m => (st2, some m, [])
        | none =>
          let msg : SessionMessage :=
            ⟨sid, a2.2, data.message, useLocalId⟩
          let st3 := { st2 with
            messages := st2.messages ++ [msg],
            sessions := st2.sessions.map (fun r =>
              if r.id = sid then { r with lastMessageAt := now } else r) }
          (st3, none, [.newMessage msg sid a1.2 tok])
    | _ => (st, none, [])

/-- Success recognizer for `update-metadata` replies. -/
def MetaReply.isSuccess : MetaReply → Bool
  | .success _ _ => true
  | _ => false

/-- Conflict recognizer for `update-metadata` replies. -/
def MetaReply.isConflict : MetaReply → Bool
  | .versionMismatch _ _ => true
  | _ => false

/-- Success recognizer for `update-state` replies. -/
def StateReply.isSuccess : StateReply → Bool
  | .success _ _ => true
  | _ => false

/-- Conflict recognizer for `update-state` replies. -/
def StateReply.isConflict : StateReply → Bool
  | .versionMismatch _ _ => true
  | _ => false

/-- Success recognizer for settings-route replies. -/
def SettingsReply.isSuccess : SettingsReply → Bool
  | .success _ => true
  | _ => false

/-- Conflict recognizer for settings-route replies. -/
def SettingsReply.isConflict : SettingsReply → Bool
  | .versionMismatch _ _ => true
  | _ => false

/-- One `update-metadata` command with fixed target and expectedVersion,
viewed as a state-and-reply step over the store. -/
def metaStep (userId tok sid : String) (v : Int) (st : Store) (m : String) :
    Store × MetaReply :=
  let r := updateMetadata userId tok st ⟨.jstr sid, .jstr m, .jnum v⟩
  (r.1, r.2.1)

/-- One `update-state` command with fixed target and expectedVersion. -/
def stateStep (userId tok sid : String) (v : Int) (st : Store)
    (a : Option String) : Store × StateReply :=
  let r := updateState userId tok st
    ⟨.jstr sid, (match a with | some s => .jstr s | none => .jnull), .jnum v⟩
  (r.1, r.2.1)

/-- One settings update with fixed expectedVersion. -/
def settingsStep (userId tok : String) (v now : Int) (st : Store)
    (s : Option String) : Store × SettingsReply :=
  let r := updateSettings userId tok st s v now
  (r.1, r.2.1)

/-- Run a list of commands one after the other, collecting the replies; this
is the serialized order in which the storage layer commits the conditional
updates. -/
def runSteps {σ α ρ : Type} (step : σ → α → σ × ρ) : σ → List α → σ × List ρ
  | st, [] => (st, [])
  | st, a :: rest =>
    let r := step st a
    let rr := runSteps step r.1 rest
    (rr.1, r.2 :: rr.2)

/-- If from `st` every step fails with a conflict and leaves the state
unchanged, a run of any list of steps from `st` has no success, only
conflicts, and ends in `st`. -/
theorem runSteps_all_fail {σ α ρ : Type} (step : σ → α → σ × ρ)
    (ok conflict : ρ → Bool) (st : σ)
    (hf : ∀ b, ok (step st b).2 = false ∧ conflict (step st b).2 = true ∧
      (step st b).1 = st) :
    ∀ l : List α, (runSteps step st l).1 = st ∧
      (runSteps step st l).2.countP ok = 0 ∧
      ∀ r ∈ (runSteps step st l).2, conflict r = true := by
  intro l
  induction l with
  | nil => simp [runSteps]
  | cons b rest ih =>
    obtain ⟨h1, h2, h3⟩ := hf b
    simp only [runSteps, h3]
    refine ⟨ih.1, ?_, ?_⟩
    · simp [List.countP_cons, h1, ih.2.1]
    · intro r hr
      rcases List.mem_cons.mp hr with h | h
      · exact h ▸ h2
      · exact ih.2.2 r h

/-- If the first step from `st0` succeeds and every step taken from the state
reached by that success fails with a conflict and leaves the state unchanged,
then a run of one or more steps has exactly one success and every other reply
is a conflict. -/
theorem runSteps_exactly_one {σ α ρ : Type} (step : σ → α → σ × ρ)
    (ok conflict : ρ → Bool) (st0 : σ)
    (hs : ∀ a, ok (step st0 a).2 = true)
    (hf : ∀ a b, ok (step (step st0 a).1 b).2 = false ∧
      conflict (step (step st0 a).1 b).2 = true ∧
      (step (step st0 a).1 b).1 = (step st0 a).1)
    (a : α) (rest : List α) :
    (runSteps step st0 (a :: rest)).2.countP ok = 1 ∧
    ∀ r ∈ (runSteps step st0 (a :: rest)).2,
      ok r = true ∨ conflict r = true := by
  have tail := runSteps_all_fail step ok conflict (step st0 a).1 (hf a) rest
  simp only [runSteps]
  constructor
  · simp [List.countP_cons, hs a, tail.2.1]
  · intro r hr
    rcases List.mem_cons.mp hr with h | h
    · exact Or.inl (h ▸ hs a)
    · exact Or.inr (tail.2.2 r h)

/-- A conditional row update whose updater preserves `id` and `accountId`
commutes with `findSession`: the row found afterwards is the row found before,
updated when it matched. -/
theorem findSession_updateWhere (rows : List Session) (sid uid : String)
    (p : Session → Bool) (f : Session → Session)
    (hid : ∀ r, (f r).id = r.id) (hacc : ∀ r, (f r).accountId = r.accountId) :
    findSession (updateWhere rows p f).1 sid uid =
      (findSession rows sid uid).map (fun r => if p r then f r else r) := by
  unfold findSession updateWhere
  rw [List.find?_map]
  have hpred : ((fun r => decide (r.id = sid ∧ r.accountId = uid)) ∘
      fun r => if p r = true then f r else r) =
      (fun r => decide (r.id = sid ∧ r.accountId = uid)) := by
    funext r
    by_cases h : p r <;> simp [h, hid, hacc]
  rw [hpred]

/-- When the target session exists and its metadata version matches, the
`update-metadata` handler succeeds: it stores the new value with version
`v + 1`, allocates the next account-scope seq, emits exactly one
session-update payload carrying the new value and version, and acknowledges
success with version `v + 1`. -/
theorem meta_step_success (userId tok sid m : String) (v : Int) (st : Store)
    (sess : Session)
    (hsid : sid ≠ "")
    (hfind : findSession st.sessions sid userId = some sess)
    (hv : sess.metadataVersion = v) :
    updateMetadata userId tok st ⟨.jstr sid, .jstr m, .jnum v⟩ =
      ({ st with
          sessions := (updateWhere st.sessions
            (fun r => r.id = sid ∧ r.metadataVersion = v)
            (fun r => { r with metadata := m,
                               metadataVersion := v + 1 })).1,
          userSeqs := fun u => if u = userId then st.userSeqs userId + 1
            else st.userSeqs u },
        .success (v + 1) m,
        [.updateSession sid (st.userSeqs userId + 1) tok (some (m, v + 1))
          none]) := by
  have hmem := List.mem_of_find?_eq_some hfind
  have hp := List.find?_some hfind
  simp only [decide_eq_true_eq] at hp
  have hcount : ¬ (updateWhere st.sessions
      (fun r => r.id = sid ∧ r.metadataVersion = v)
      (fun r => { r with metadata := m, metadataVersion := v + 1 })).2 = 0 := by
    simp only [updateWhere]
    intro h0
    have hz := List.countP_eq_zero.mp h0 sess hmem
    simp only [decide_eq_true_eq] at hz
    exact hz ⟨hp.1, hv⟩
  simp only [updateMetadata, updateMetadataCore, hfind, truthy, isStr, isNum,
    allocateUserSeq]
  rw [if_neg, if_neg (not_not_intro hv), if_neg hcount]
  simp [hsid]

/-- When the target session exists but its metadata version differs from
`expectedVersion`, the `update-metadata` handler replies with a version
mismatch carrying the read row's value and version, mutates nothing and
emits nothing. -/
theorem meta_step_conflict (userId tok sid m : String) (v : Int) (st : Store)
    (sess : Session)
    (hsid : sid ≠ "")
    (hfind : findSession st.sessions sid userId = some sess)
    (hv : sess.metadataVersion ≠ v) :
    updateMetadata userId tok st ⟨.jstr sid, .jstr m, .jnum v⟩ =
      (st, .versionMismatch sess.metadataVersion sess.metadata, []) := by
  simp only [updateMetadata, updateMetadataCore, hfind, truthy, isStr, isNum]
  rw [if_neg, if_pos hv]
  simp [hsid]

/-- When the target session exists and its agent-state version matches, the
`update-state` handler succeeds analogously to `update-metadata`. `av` is the
agent-state value as string-or-null. -/
theorem state_step_success (userId tok sid : String) (av : Option String)
    (v : Int) (st : Store) (sess : Session)
    (hsid : sid ≠ "")
    (hfind : findSession st.sessions sid userId = some sess)
    (hv : sess.agentStateVersion = v) :
    updateState userId tok st
      ⟨.jstr sid, (match av with | some s => .jstr s | none => .jnull),
        .jnum v⟩ =
      ({ st with
          sessions := (updateWhere st.sessions
            (fun r => r.id = sid ∧ r.agentStateVersion = v)
            (fun r => { r with agentState := av,
                               agentStateVersion := v + 1 })).1,
          userSeqs := fun u => if u = userId then st.userSeqs userId + 1
            else st.userSeqs u },
        .success (v + 1) av,
        [.updateSession sid (st.userSeqs userId + 1) tok none
          (some (av, v + 1))]) := by
  have hmem := List.mem_of_find?_eq_some hfind
  have hp := List.find?_some hfind
  simp only [decide_eq_true_eq] at hp
  have hcount : ¬ (updateWhere st.sessions
      (fun r => r.id = sid ∧ r.agentStateVersion = v)
      (fun r => { r with agentState := av,
                         agentStateVersion := v + 1 })).2 = 0 := by
    simp only [updateWhere]
    intro h0
    have hz := List.countP_eq_zero.mp h0 sess hmem
    simp only [decide_eq_true_eq] at hz
    exact hz ⟨hp.1, hv⟩
  cases av with
  | some s =>
    simp only [updateState, updateStateCore, hfind, truthy, isStr, isNum,
      strOrNull, allocateUserSeq]
    rw [if_neg, if_neg (not_not_intro hv), if_neg hcount]
    simp [hsid]
  | none =>
    simp only [updateState, updateStateCore, hfind, truthy, isStr, isNum,
      strOrNull, allocateUserSeq]
    rw [if_neg, if_neg (not_not_intro hv), if_neg hcount]
    simp [hsid]

/-- When the target session exists but its agent-state version differs, the
`update-state` handler replies with a version mismatch carrying the read
row's value and version, mutates nothing and emits nothing. -/
theorem state_step_conflict (userId tok sid : String) (av : Option String)
    (v : Int) (st : Store) (sess : Session)
    (hsid : sid ≠ "")
    (hfind : findSession st.sessions sid userId = some sess)
    (hv : sess.agentStateVersion ≠ v) :
    updateState userId tok st
      ⟨.jstr sid, (match av with | some s => .jstr s | none => .jnull),
        .jnum v⟩ =
      (st, .versionMismatch sess.agentStateVersion sess.agentState, []) := by
  cases av with
  | some s =>
    simp only [updateState, updateStateCore, hfind, truthy, isStr, isNum,
      strOrNull]
    rw [if_neg, if_pos hv]
    simp [hsid]
  | none =>
    simp only [updateState, updateStateCore, hfind, truthy, isStr, isNum,
      strOrNull]
    rw [if_neg, if_pos hv]
    simp [hsid]

/-- `findAccount` analogue of `findSession_updateWhere`. -/
theorem findAccount_updateWhere (rows : List Account) (uid : String)
    (p : Account → Bool) (f : Account → Account)
    (hid : ∀ r, (f r).id = r.id) :
    findAccount (updateWhere rows p f).1 uid =
      (findAccount rows uid).map (fun r => if p r then f r else r) := by
  unfold findAccount updateWhere
  rw [List.find?_map]
  have hpred : ((fun r => decide (r.id = uid)) ∘
      fun r => if p r = true then f r else r) =
      (fun r => decide (r.id = uid)) := by
    funext r
    by_cases h : p r <;> simp [h, hid]
  rw [hpred]

/-- When the caller's account exists and its settings version matches, the
settings route succeeds: it stores the new settings with version `v + 1`,
allocates the next account-scope seq, emits exactly one account-update
payload carrying the new value and version, and responds with version
`v + 1`. -/
theorem settings_step_success (userId tok : String) (s : Option String)
    (v now : Int) (st : Store) (acc : Account)
    (hfind : findAccount st.accounts userId = some acc)
    (hv : acc.settingsVersion = v) :
    updateSettings userId tok st s v now =
      ({ st with
          accounts := (updateWhere st.accounts
            (fun a => a.id = userId ∧ a.settingsVersion = v)
            (fun a => { a with settings := s, settingsVersion := v + 1,
                               updatedAt := now })).1,
          userSeqs := fun u => if u = userId then st.userSeqs userId + 1
            else st.userSeqs u },
        .success (v + 1),
        [.accountUpdate userId (s, v + 1) (st.userSeqs userId + 1) tok]) := by
  have hmem := List.mem_of_find?_eq_some hfind
  have hp := List.find?_some hfind
  simp only [decide_eq_true_eq] at hp
  have hcount : ¬ (updateWhere st.accounts
      (fun a => a.id = userId ∧ a.settingsVersion = v)
      (fun a => { a with settings := s, settingsVersion := v + 1,
                         updatedAt := now })).2 = 0 := by
    simp only [updateWhere]
    intro h0
    have hz := List.countP_eq_zero.mp h0 acc hmem
    simp only [decide_eq_true_eq] at hz
    exact hz ⟨hp, hv⟩
  simp only [updateSettings, updateSettingsCore, hfind, allocateUserSeq]
  rw [if_neg (not_not_intro hv), if_neg hcount]

/-- When the caller's account exists but its settings version differs, the
settings route replies with a version mismatch carrying the read row's value
and version, mutates nothing and emits nothing. -/
theorem settings_step_conflict (userId tok : String) (s : Option String)
    (v now : Int) (st : Store) (acc : Account)
    (hfind : findAccount st.accounts userId = some acc)
    (hv : acc.settingsVersion ≠ v) :
    updateSettings userId tok st s v now =
      (st, .versionMismatch acc.settingsVersion acc.settings, []) := by
  simp only [updateSettings, updateSettingsCore, hfind]
  rw [if_pos hv]

/-- An `update-metadata` for a session id that does not resolve under the
caller's account returns silently: no callback, no mutation, no event. -/
theorem meta_step_notfound (userId tok sid m : String) (v : Int) (st : Store)
    (hsid : sid ≠ "")
    (hfind : findSession st.sessions sid userId = none) :
    updateMetadata userId tok st ⟨.jstr sid, .jstr m, .jnum v⟩ =
      (st, .noReply, []) := by
  simp only [updateMetadata, updateMetadataCore, hfind, truthy, isStr, isNum]
  rw [if_neg]
  simp [hsid]

/-- An `update-state` for a session id that does not resolve under the
caller's account replies with an error result: no mutation, no event. -/
theorem state_step_notfound (userId tok sid : String) (av : Option String)
    (v : Int) (st : Store)
    (hsid : sid ≠ "")
    (hfind : findSession st.sessions sid userId = none) :
    updateState userId tok st
      ⟨.jstr sid, (match av with | some s => .jstr s | none => .jnull),
        .jnum v⟩ =
      (st, .errorReply, []) := by
  cases av with
  | some s =>
    simp only [updateState, updateStateCore, hfind, truthy, isStr, isNum,
      strOrNull]
    rw [if_neg]
    simp [hsid]
  | none =>
    simp only [updateState, updateStateCore, hfind, truthy, isStr, isNum,
      strOrNull]
    rw [if_neg]
    simp [hsid]

/-- A settings update for a missing account row responds with the 500
failure: no mutation, no event. -/
theorem settings_step_notfound (userId tok : String) (s : Option String)
    (v now : Int) (st : Store)
    (hfind : findAccount st.accounts userId = none) :
    updateSettings userId tok st s v now = (st, .failure500, []) := by
  simp only [updateSettings, updateSettingsCore, hfind]

/-- After a successful `update-metadata`, the stored row reads back with the
new value and version incremented by exactly one. -/
theorem meta_success_find (userId tok sid m : String) (v : Int) (st : Store)
    (sess : Session)
    (hsid : sid ≠ "")
    (hfind : findSession st.sessions sid userId = some sess)
    (hv : sess.metadataVersion = v) :
    findSession
      (updateMetadata userId tok st ⟨.jstr sid, .jstr m, .jnum v⟩).1.sessions
      sid userId =
      some { sess with metadata := m, metadataVersion := v + 1 } := by
  rw [meta_step_success userId tok sid m v st sess hsid hfind hv]
  have hp := List.find?_some hfind
  simp only [decide_eq_true_eq] at hp
  show findSession (updateWhere _ _ _).1 sid userId = _
  rw [findSession_updateWhere st.sessions sid userId
    (fun r => decide (r.id = sid ∧ r.metadataVersion = v))
    (fun r => { r with metadata := m, metadataVersion := v + 1 })
    (fun r => rfl) (fun r => rfl), hfind]
  simp [hp.1, hv]

/-- After a successful `update-state`, the stored row reads back with the new
agent state and version incremented by exactly one. -/
theorem state_success_find (userId tok sid : String) (av : Option String)
    (v : Int) (st : Store) (sess : Session)
    (hsid : sid ≠ "")
    (hfind : findSession st.sessions sid userId = some sess)
    (hv : sess.agentStateVersion = v) :
    findSession
      (updateState userId tok st
        ⟨.jstr sid, (match av with | some s => .jstr s | none => .jnull),
          .jnum v⟩).1.sessions sid userId =
      some { sess with agentState := av, agentStateVersion := v + 1 } := by
  rw [state_step_success userId tok sid av v st sess hsid hfind hv]
  have hp := List.find?_some hfind
  simp only [decide_eq_true_eq] at hp
  show findSession (updateWhere _ _ _).1 sid userId = _
  rw [findSession_updateWhere st.sessions sid userId
    (fun r => decide (r.id = sid ∧ r.agentStateVersion = v))
    (fun r => { r with agentState := av, agentStateVersion := v + 1 })
    (fun r => rfl) (fun r => rfl), hfind]
  simp [hp.1, hv]

/-- After a successful settings update, the stored account row reads back
with the new settings and version incremented by exactly one. -/
theorem settings_success_find (userId tok : String) (s : Option String)
    (v now : Int) (st : Store) (acc : Account)
    (hfind : findAccount st.accounts userId = some acc)
    (hv : acc.settingsVersion = v) :
    findAccount (updateSettings userId tok st s v now).1.accounts userId =
      some { acc with settings := s, settingsVersion := v + 1,
                      updatedAt := now } := by
  rw [settings_step_success userId tok s v now st acc hfind hv]
  have hp := List.find?_some hfind
  simp only [decide_eq_true_eq] at hp
  show findAccount (updateWhere _ _ _).1 userId = _
  rw [findAccount_updateWhere st.accounts userId
    (fun a => decide (a.id = userId ∧ a.settingsVersion = v))
    (fun a => { a with settings := s, settingsVersion := v + 1,
                       updatedAt := now })
    (fun r => rfl), hfind]
  simp [hp, hv]

/-- Any number of serialized `update-metadata` commands presenting the same
expectedVersion against a row holding that version: exactly one succeeds and
every other reply is a version conflict. -/
theorem meta_fold_exclusive (userId tok sid : String) (v : Int) (st : Store)
    (sess : Session)
    (hsid : sid ≠ "")
    (hfind : findSession st.sessions sid userId = some sess)
    (hv : sess.metadataVersion = v)
    (m : String) (rest : List String) :
    (runSteps (metaStep userId tok sid v) st (m :: rest)).2.countP
      MetaReply.isSuccess = 1 ∧
    ∀ r ∈ (runSteps (metaStep userId tok sid v) st (m :: rest)).2,
      MetaReply.isSuccess r = true ∨ MetaReply.isConflict r = true := by
  apply runSteps_exactly_one
  · intro a
    simp only [metaStep,
      meta_step_success userId tok sid a v st sess hsid hfind hv]
    rfl
  · intro a b
    have hfind1 := meta_success_find userId tok sid a v st sess hsid hfind hv
    have hconf := meta_step_conflict userId tok sid b v
      (updateMetadata userId tok st ⟨.jstr sid, .jstr a, .jnum v⟩).1
      { sess with metadata := a, metadataVersion := v + 1 } hsid hfind1
      (by show v + 1 ≠ v; omega)
    refine ⟨?_, ?_, ?_⟩ <;> simp only [metaStep, hconf] <;> rfl

/-- Any number of serialized `update-state` commands presenting the same
expectedVersion against a row holding that version: exactly one succeeds and
every other reply is a version conflict. -/
theorem state_fold_exclusive (userId tok sid : String) (v : Int) (st : Store)
    (sess : Session)
    (hsid : sid ≠ "")
    (hfind : findSession st.sessions sid userId = some sess)
    (hv : sess.agentStateVersion = v)
    (a0 : Option String) (rest : List (Option String)) :
    (runSteps (stateStep userId tok sid v) st (a0 :: rest)).2.countP
      StateReply.isSuccess = 1 ∧
    ∀ r ∈ (runSteps (stateStep userId tok sid v) st (a0 :: rest)).2,
      StateReply.isSuccess r = true ∨ StateReply.isConflict r = true := by
  apply runSteps_exactly_one
  · intro a
    simp only [stateStep,
      state_step_success userId tok sid a v st sess hsid hfind hv]
    rfl
  · intro a b
    have hfind1 := state_success_find userId tok sid a v st sess hsid hfind hv
    have hconf := state_step_conflict userId tok sid b v _
      { sess with agentState := a, agentStateVersion := v + 1 } hsid hfind1
      (by show v + 1 ≠ v; omega)
    refine ⟨?_, ?_, ?_⟩ <;> simp only [stateStep, hconf] <;> rfl

/-- Any number of serialized settings updates presenting the same
expectedVersion against an account holding that version: exactly one succeeds
and every other reply is a version conflict. -/
theorem settings_fold_exclusive (userId tok : String) (v now : Int)
    (st : Store) (acc : Account)
    (hfind : findAccount st.accounts userId = some acc)
    (hv : acc.settingsVersion = v)
    (s0 : Option String) (rest : List (Option String)) :
    (runSteps (settingsStep userId tok v now) st (s0 :: rest)).2.countP
      SettingsReply.isSuccess = 1 ∧
    ∀ r ∈ (runSteps (settingsStep userId tok v now) st (s0 :: rest)).2,
      SettingsReply.isSuccess r = true ∨ SettingsReply.isConflict r = true := by
  apply runSteps_exactly_one
  · intro a
    simp only [settingsStep,
      settings_step_success userId tok a v now st acc hfind hv]
    rfl
  · intro a b
    have hfind1 := settings_success_find userId tok a v now st acc hfind hv
    have hconf := settings_step_conflict userId tok b v now
      (updateSettings userId tok st a v now).1
      { acc with settings := a, settingsVersion := v + 1, updatedAt := now }
      hfind1 (by show v + 1 ≠ v; omega)
    refine ⟨?_, ?_, ?_⟩ <;> simp only [settingsStep, hconf] <;> rfl

/-- The `lastMessageAt` touch of the message handler commutes with
`findSession`. -/
theorem findSession_touch (rows : List Session) (sid uid : String)
    (now : Int) :
    findSession (rows.map (fun r =>
        if r.id = sid then { r with lastMessageAt := now } else r)) sid uid =
      (findSession rows sid uid).map (fun r =>
        if r.id = sid then { r with lastMessageAt := now } else r) := by
  unfold findSession
  rw [List.find?_map]
  have hpred : ((fun (r : Session) => decide (r.id = sid ∧ r.accountId = uid)) ∘
      fun (r : Session) =>
        if r.id = sid then { r with lastMessageAt := now } else r) =
      (fun (r : Session) => decide (r.id = sid ∧ r.accountId = uid)) := by
    funext r
    by_cases h : r.id = sid <;> simp [h]
  rw [hpred]

/-- A first (non-duplicate) append: the message handler allocates both
sequence numbers, inserts the record with the fresh session-scope seq,
touches the owning session's `lastMessageAt`, and emits exactly one
new-message durable update stamped with the fresh account-scope seq. -/
theorem message_step_create (userId tok sid l : String) (now : Int)
    (c : JsVal) (st : Store) (sess : Session)
    (hc1 : c ≠ .jnull) (hc2 : c ≠ .jundef)
    (hfind : findSession st.sessions sid userId = some sess)
    (hnone : st.messages.find? (msgKey sid l) = none) :
    messageHandler userId now tok st ⟨.jstr sid, c, .jstr l⟩ =
      ({ st with
          messages := st.messages ++
            [⟨sid, st.sessionSeqs sid + 1, c, some l⟩],
          sessions := st.sessions.map (fun r =>
            if r.id = sid then { r with lastMessageAt := now } else r),
          userSeqs := fun u => if u = userId then st.userSeqs userId + 1
            else st.userSeqs u,
          sessionSeqs := fun s0 => if s0 = sid then st.sessionSeqs sid + 1
            else st.sessionSeqs s0 },
        none,
        [.newMessage ⟨sid, st.sessionSeqs sid + 1, c, some l⟩ sid
          (st.userSeqs userId + 1) tok]) := by
  simp only [messageHandler, allocateUserSeq, allocateSessionSeq]
  rw [if_neg (by simp [hc1, hc2]), hfind]
  dsimp only
  rw [hnone]

/-- A duplicate append (a record with the same key already exists): both
sequence numbers are still allocated, but nothing is inserted, nothing is
touched, nothing is emitted, and the existing record is the handler's
result. -/
theorem message_step_duplicate (userId tok sid l : String) (now : Int)
    (c : JsVal) (st : Store) (sess : Session) (e : SessionMessage)
    (hc1 : c ≠ .jnull) (hc2 : c ≠ .jundef)
    (hfind : findSession st.sessions sid userId = some sess)
    (hdup : st.messages.find? (msgKey sid l) = some e) :
    messageHandler userId now tok st ⟨.jstr sid, c, .jstr l⟩ =
      ({ st with
          userSeqs := fun u => if u = userId then st.userSeqs userId + 1
            else st.userSeqs u,
          sessionSeqs := fun s0 => if s0 = sid then st.sessionSeqs sid + 1
            else st.sessionSeqs s0 },
        some e,
        []) := by
  simp only [messageHandler, allocateUserSeq, allocateSessionSeq]
  rw [if_neg (by simp [hc1, hc2]), hfind]
  dsimp only
  rw [hdup]

/-- A concrete session row, used to instantiate the general theorems. -/
def sampleSession : Session :=
  { id := "s1", accountId := "u1", metadata := "a", metadataVersion := 0,
    agentState := none, agentStateVersion := 0, lastMessageAt := 0,
    lastActiveAt := 0, active := true }

/-- A concrete account row. -/
def sampleAccount : Account :=
  { id := "u1", settings := some "cfg", settingsVersion := 0, updatedAt := 0 }

/-- A concrete store holding one session and one account. -/
def sampleStore : Store :=
  { sessions := [sampleSession], messages := [], accounts := [sampleAccount],
    userSeqs := fun _ => 0, sessionSeqs := fun _ => 0,
    lastSeen := fun _ => none }

/-- C6: an `update-metadata` or `update-state` command with malformed input
(missing sid, or value/expectedVersion of the wrong type, exactly the
handlers' validation predicates) is answered with the generic error result,
mutates no storage and emits no event. -/
theorem C6_malformed_input (userId tok : String) (st : Store)
    (dm : MetaInput) (ds : StateInput)
    (hm : ¬ truthy dm.sid = true ∨ ¬ isStr dm.metadata = true ∨
      ¬ isNum dm.expectedVersion = true)
    (hs : ¬ truthy ds.sid = true ∨ (strOrNull ds.agentState).isNone = true ∨
      ¬ isNum ds.expectedVersion = true) :
    updateMetadata userId tok st dm = (st, .errorReply, []) ∧
    updateState userId tok st ds = (st, .errorReply, []) := by
  constructor
  · simp only [updateMetadata, updateMetadataCore]
    rw [if_pos hm]
  · simp only [updateState, updateStateCore]
    rw [if_pos hs]

/-- Closed instance of `C6_malformed_input`: a missing sid for
`update-metadata` and a boolean agentState for `update-state`. -/
theorem C6_witness :
    updateMetadata "u1" "t" sampleStore
      ⟨.jundef, .jstr "m", .jnum 0⟩ = (sampleStore, .errorReply, []) ∧
    updateState "u1" "t" sampleStore
      ⟨.jstr "s1", .jbool true, .jnum 0⟩ = (sampleStore, .errorReply, []) :=
  C6_malformed_input "u1" "t" sampleStore _ _
    (by simp [truthy]) (by simp [strOrNull])

/-- C7 counterexample: an `update-metadata` naming a session id that does not
exist replies with nothing at all — the handler returns without invoking the
acknowledgement callback — rather than the explicit not-found/error result
the claim asserts. -/
theorem C7_counterexample :
    (updateMetadata "u1" "t" sampleStore
      ⟨.jstr "nope", .jstr "m", .jnum 0⟩).2.1 = MetaReply.noReply ∧
    MetaReply.noReply ≠ MetaReply.errorReply := by
  constructor
  · rfl
  · decide

/-- C7 (amended): a request/response command naming an unknown or
foreign-owned session performs no storage mutation and emits no event;
`update-state` replies with an explicit error result, while `update-metadata`
returns silently without invoking its acknowledgement callback. -/
theorem C7_unknown_entity (userId tok sid m : String) (av : Option String)
    (v w : Int) (st : Store)
    (hsid : sid ≠ "")
    (hfind : findSession st.sessions sid userId = none) :
    updateMetadata userId tok st ⟨.jstr sid, .jstr m, .jnum v⟩ =
      (st, .noReply, []) ∧
    updateState userId tok st
      ⟨.jstr sid, (match av with | some s => .jstr s | none => .jnull),
        .jnum w⟩ =
      (st, .errorReply, []) :=
  ⟨meta_step_notfound userId tok sid m v st hsid hfind,
   state_step_notfound userId tok sid av w st hsid hfind⟩

/-- Closed instance of `C7_unknown_entity`. -/
theorem C7_witness :
    updateMetadata "u1" "t" sampleStore ⟨.jstr "nope", .jstr "m", .jnum 0⟩ =
      (sampleStore, .noReply, []) ∧
    updateState "u1" "t" sampleStore ⟨.jstr "nope", .jnull, .jnum 0⟩ =
      (sampleStore, .errorReply, []) :=
  C7_unknown_entity "u1" "t" "nope" "m" none 0 0 sampleStore
    (by decide) (by rfl)

/-- C9 counterexample: `session-end` also discards a timestamp more than ten
minutes old (no state change, no event), while the same command with a fresh
timestamp is processed — so the heartbeat is not the only inbound command
whose acceptance depends on the supplied timestamp's age. -/
theorem C9_counterexample :
    sessionEnd "u1" 1000000000000 sampleStore
      ⟨.jstr "s1", .jnum (1000000000000 - 86400000)⟩ = (sampleStore, []) ∧
    (sessionEnd "u1" 1000000000000 sampleStore
      ⟨.jstr "s1", .jnum 1000000000000⟩).2 ≠ [] := by
  constructor
  · rfl
  · decide

/-- C9 (amended): the ten-minute discard rule applies to both
timestamp-carrying fire-and-forget commands — `session-alive` and
`session-end`: a timestamp more than ten minutes in the past drops the
command with no state change and no event. -/
theorem C9_discard_rule (userId : String) (now t0 u0 : Int) (st : Store)
    (da : AliveInput) (de : EndInput)
    (ha : da.time = .jnum t0) (ht : t0 < now - 1000 * 60 * 10)
    (he : de.time = .jnum u0) (hu : u0 < now - 1000 * 60 * 10) :
    sessionAlive userId now st da = (st, []) ∧
    sessionEnd userId now st de = (st, []) := by
  obtain ⟨asid, atime, athink⟩ := da
  obtain ⟨esid, etime⟩ := de
  simp only at ha he
  subst ha
  subst he
  constructor
  · by_cases hts : truthy asid = true
    · simp only [sessionAlive, isNum, hts]
      rw [if_neg (by simp)]
      have hcl : (if t0 > now then now else t0) = t0 := if_neg (by omega)
      rw [hcl, if_pos ht]
    · simp only [sessionAlive]
      rw [if_pos (Or.inr (by simp [hts]))]
  · simp only [sessionEnd]
    have hcl : (if u0 > now then now else u0) = u0 := if_neg (by omega)
    rw [hcl, if_pos hu]

/-- Closed instance of `C9_discard_rule`. -/
theorem C9_witness :
    sessionAlive "u1" 1000000000000 sampleStore
      ⟨.jstr "s1", .jnum (1000000000000 - 86400000), .jundef⟩ =
      (sampleStore, []) ∧
    sessionEnd "u1" 1000000000000 sampleStore
      ⟨.jstr "s1", .jnum (1000000000000 - 86400000)⟩ = (sampleStore, []) :=
  C9_discard_rule "u1" 1000000000000 (1000000000000 - 86400000)
    (1000000000000 - 86400000) sampleStore _ _
    rfl (by omega) rfl (by omega)

/-- C3: a `session-alive` heartbeat with a future timestamp is clamped to the
current time and then processed exactly as a heartbeat stamped "now" (in
particular, for a valid session it stores "now" as last-seen and emits one
activity event carrying "now"); a heartbeat more than ten minutes in the past
is rejected with no state change and no event. -/
theorem C3_heartbeat_clamp_discard (userId sid : String) (now t0 : Int)
    (st : Store) (think : JsVal)
    (hsid : sid ≠ "") :
    (t0 > now →
      sessionAlive userId now st ⟨.jstr sid, .jnum t0, think⟩ =
        sessionAlive userId now st ⟨.jstr sid, .jnum now, think⟩ ∧
      (isSessionValid st sid userId = true →
        sessionAlive userId now st ⟨.jstr sid, .jnum t0, think⟩ =
          (queueSessionUpdate st sid now,
            [⟨sid, true, now, thinkingOrFalse think⟩]))) ∧
    (t0 < now - 1000 * 60 * 10 →
      sessionAlive userId now st ⟨.jstr sid, .jnum t0, think⟩ = (st, [])) := by
  constructor
  · intro hfut
    have hcl : (if t0 > now then now else t0) = now := if_pos hfut
    have hcl2 : (if now > now then now else now) = now := by simp
    have h1 : sessionAlive userId now st ⟨.jstr sid, .jnum t0, think⟩ =
        sessionAlive userId now st ⟨.jstr sid, .jnum now, think⟩ := by
      simp only [sessionAlive, isNum]
      rw [hcl, hcl2]
    refine ⟨h1, ?_⟩
    intro hvalid
    rw [h1]
    simp only [sessionAlive, isNum]
    rw [if_neg (by simp [truthy, hsid])]
    rw [hcl2, if_neg (by omega), if_pos hvalid]
  · intro hpast
    simp only [sessionAlive, isNum]
    rw [if_neg (by simp [truthy, hsid])]
    have hcl : (if t0 > now then now else t0) = t0 := if_neg (by omega)
    rw [hcl, if_pos hpast]

/-- Closed instance of `C3_heartbeat_clamp_discard`: a heartbeat one hour in
the future is stored and announced as "now"; a heartbeat far in the past is
dropped. -/
theorem C3_witness :
    sessionAlive "u1" 1000000 sampleStore
      ⟨.jstr "s1", .jnum 4600000, .jundef⟩ =
      (queueSessionUpdate sampleStore "s1" 1000000,
        [⟨"s1", true, 1000000, .jbool false⟩]) ∧
    sessionAlive "u1" 1000000 sampleStore
      ⟨.jstr "s1", .jnum 100, .jundef⟩ = (sampleStore, []) := by
  constructor
  · exact ((C3_heartbeat_clamp_discard "u1" "s1" 1000000 4600000 sampleStore
      .jundef (by decide)).1 (by decide)).2 (by decide)
  · exact (C3_heartbeat_clamp_discard "u1" "s1" 1000000 100 sampleStore
      .jundef (by decide)).2 (by decide)

/-- C5: an append-message that duplicates an existing (sessionId, localId)
record is treated as success: the existing record is the handler's result,
no new record is stored and no event is emitted. (The `message` event has no
acknowledgement callback, so "returned" is the value of the locked handler
body.) -/
theorem C5_duplicate_append (userId tok sid l : String) (now : Int)
    (c : JsVal) (st : Store) (sess : Session) (e : SessionMessage)
    (hc1 : c ≠ .jnull) (hc2 : c ≠ .jundef)
    (hfind : findSession st.sessions sid userId = some sess)
    (hdup : st.messages.find? (msgKey sid l) = some e) :
    (messageHandler userId now tok st ⟨.jstr sid, c, .jstr l⟩).2.1 = some e ∧
    (messageHandler userId now tok st ⟨.jstr sid, c, .jstr l⟩).1.messages =
      st.messages ∧
    (messageHandler userId now tok st ⟨.jstr sid, c, .jstr l⟩).2.2 = [] := by
  rw [message_step_duplicate userId tok sid l now c st sess e hc1 hc2 hfind
    hdup]
  exact ⟨rfl, rfl, rfl⟩

/-- A store whose message table already holds the record (s1, m1). -/
def dupStore : Store :=
  { sampleStore with messages := [⟨"s1", 1, .jstr "enc", some "m1"⟩] }

/-- Closed instance of `C5_duplicate_append`. -/
theorem C5_witness :
    (messageHandler "u1" 5 "t" dupStore
      ⟨.jstr "s1", .jstr "enc", .jstr "m1"⟩).2.1 =
      some ⟨"s1", 1, .jstr "enc", some "m1"⟩ ∧
    (messageHandler "u1" 5 "t" dupStore
      ⟨.jstr "s1", .jstr "enc", .jstr "m1"⟩).1.messages =
      dupStore.messages ∧
    (messageHandler "u1" 5 "t" dupStore
      ⟨.jstr "s1", .jstr "enc", .jstr "m1"⟩).2.2 = [] :=
  C5_duplicate_append "u1" "t" "s1" "m1" 5 (.jstr "enc") dupStore
    sampleSession ⟨"s1", 1, .jstr "enc", some "m1"⟩
    (by decide) (by decide) (by rfl) (by rfl)

/-- C10: a duplicate append still allocates one account-scope and one
session-scope sequence number (both allocations precede the duplicate
check), so both counters advance while the message table, the session table
and the emitted-update list are untouched. -/
theorem C10_duplicate_burns_seqs (userId tok sid l : String) (now : Int)
    (c : JsVal) (st : Store) (sess : Session) (e : SessionMessage)
    (hc1 : c ≠ .jnull) (hc2 : c ≠ .jundef)
    (hfind : findSession st.sessions sid userId = some sess)
    (hdup : st.messages.find? (msgKey sid l) = some e) :
    (messageHandler userId now tok st ⟨.jstr sid, c, .jstr l⟩).1.userSeqs
      userId = st.userSeqs userId + 1 ∧
    (messageHandler userId now tok st ⟨.jstr sid, c, .jstr l⟩).1.sessionSeqs
      sid = st.sessionSeqs sid + 1 ∧
    (messageHandler userId now tok st ⟨.jstr sid, c, .jstr l⟩).1.messages =
      st.messages ∧
    (messageHandler userId now tok st ⟨.jstr sid, c, .jstr l⟩).1.sessions =
      st.sessions ∧
    (messageHandler userId now tok st ⟨.jstr sid, c, .jstr l⟩).2.2 = [] := by
  rw [message_step_duplicate userId tok sid l now c st sess e hc1 hc2 hfind
    hdup]
  refine ⟨?_, ?_, rfl, rfl, rfl⟩ <;> simp

/-- Closed instance of `C10_duplicate_burns_seqs`. -/
theorem C10_witness :
    (messageHandler "u1" 5 "t" dupStore
      ⟨.jstr "s1", .jstr "enc", .jstr "m1"⟩).1.userSeqs "u1" =
      dupStore.userSeqs "u1" + 1 ∧
    (messageHandler "u1" 5 "t" dupStore
      ⟨.jstr "s1", .jstr "enc", .jstr "m1"⟩).1.sessionSeqs "s1" =
      dupStore.sessionSeqs "s1" + 1 ∧
    (messageHandler "u1" 5 "t" dupStore
      ⟨.jstr "s1", .jstr "enc", .jstr "m1"⟩).1.messages =
      dupStore.messages ∧
    (messageHandler "u1" 5 "t" dupStore
      ⟨.jstr "s1", .jstr "enc", .jstr "m1"⟩).1.sessions =
      dupStore.sessions ∧
    (messageHandler "u1" 5 "t" dupStore
      ⟨.jstr "s1", .jstr "enc", .jstr "m1"⟩).2.2 = [] :=
  C10_duplicate_burns_seqs "u1" "t" "s1" "m1" 5 (.jstr "enc") dupStore
    sampleSession ⟨"s1", 1, .jstr "enc", some "m1"⟩
    (by decide) (by decide) (by rfl) (by rfl)

/-- C4: submitting the same append-message (same sessionId, same
client-supplied localId) twice — serialized, as the per-connection lock
orders them — stores exactly one record with that key and emits exactly one
durable new-message update: the second run finds the first run's record,
creates nothing and emits nothing. -/
theorem C4_append_idempotent (userId tok1 tok2 sid l : String)
    (now1 now2 : Int) (c : JsVal) (st : Store) (sess : Session)
    (hc1 : c ≠ .jnull) (hc2 : c ≠ .jundef)
    (hfind : findSession st.sessions sid userId = some sess)
    (hnone : st.messages.find? (msgKey sid l) = none) :
    (messageHandler userId now2 tok2
        (messageHandler userId now1 tok1 st ⟨.jstr sid, c, .jstr l⟩).1
        ⟨.jstr sid, c, .jstr l⟩).1.messages.countP (msgKey sid l) = 1 ∧
    (messageHandler userId now1 tok1 st
      ⟨.jstr sid, c, .jstr l⟩).2.2.length = 1 ∧
    (messageHandler userId now2 tok2
      (messageHandler userId now1 tok1 st ⟨.jstr sid, c, .jstr l⟩).1
      ⟨.jstr sid, c, .jstr l⟩).2.2 = [] ∧
    (messageHandler userId now2 tok2
      (messageHandler userId now1 tok1 st ⟨.jstr sid, c, .jstr l⟩).1
      ⟨.jstr sid, c, .jstr l⟩).1.messages =
      (messageHandler userId now1 tok1 st ⟨.jstr sid, c, .jstr l⟩).1.messages
      := by
  have hp := List.find?_some hfind
  simp only [decide_eq_true_eq] at hp
  have h1 := message_step_create userId tok1 sid l now1 c st sess hc1 hc2
    hfind hnone
  have hfind2 : findSession
      (messageHandler userId now1 tok1 st ⟨.jstr sid, c, .jstr l⟩).1.sessions
      sid userId = some { sess with lastMessageAt := now1 } := by
    rw [h1]
    dsimp only
    rw [findSession_touch, hfind]
    simp [hp.1]
  have hdup2 : (messageHandler userId now1 tok1 st
      ⟨.jstr sid, c, .jstr l⟩).1.messages.find? (msgKey sid l) =
      some ⟨sid, st.sessionSeqs sid + 1, c, some l⟩ := by
    rw [h1]
    dsimp only
    rw [List.find?_append, hnone]
    simp [msgKey]
  have h2 := message_step_duplicate userId tok2 sid l now2 c
    (messageHandler userId now1 tok1 st ⟨.jstr sid, c, .jstr l⟩).1
    { sess with lastMessageAt := now1 }
    ⟨sid, st.sessionSeqs sid + 1, c, some l⟩ hc1 hc2 hfind2 hdup2
  have hcount0 : st.messages.countP (msgKey sid l) = 0 :=
    List.countP_eq_zero.mpr (fun a ha => List.find?_eq_none.mp hnone a ha)
  refine ⟨?_, ?_, ?_, ?_⟩
  · rw [h2]
    dsimp only
    rw [h1]
    dsimp only
    rw [List.countP_append, hcount0]
    simp [msgKey]
  · rw [h1]
    rfl
  · rw [h2]
  · rw [h2]

/-- Closed instance of `C4_append_idempotent`. -/
theorem C4_witness :
    (messageHandler "u1" 6 "t2"
        (messageHandler "u1" 5 "t1" sampleStore
          ⟨.jstr "s1", .jstr "enc", .jstr "m1"⟩).1
        ⟨.jstr "s1", .jstr "enc", .jstr "m1"⟩).1.messages.countP
      (msgKey "s1" "m1") = 1 ∧
    (messageHandler "u1" 5 "t1" sampleStore
      ⟨.jstr "s1", .jstr "enc", .jstr "m1"⟩).2.2.length = 1 ∧
    (messageHandler "u1" 6 "t2"
      (messageHandler "u1" 5 "t1" sampleStore
        ⟨.jstr "s1", .jstr "enc", .jstr "m1"⟩).1
      ⟨.jstr "s1", .jstr "enc", .jstr "m1"⟩).2.2 = [] ∧
    (messageHandler "u1" 6 "t2"
      (messageHandler "u1" 5 "t1" sampleStore
        ⟨.jstr "s1", .jstr "enc", .jstr "m1"⟩).1
      ⟨.jstr "s1", .jstr "enc", .jstr "m1"⟩).1.messages =
      (messageHandler "u1" 5 "t1" sampleStore
        ⟨.jstr "s1", .jstr "enc", .jstr "m1"⟩).1.messages :=
  C4_append_idempotent "u1" "t1" "t2" "s1" "m1" 5 6 (.jstr "enc")
    sampleStore sampleSession (by decide) (by decide) (by rfl) (by rfl)

/-- C8: after every successful conditional write to a versioned field
(session metadata, session agent state, account settings), the handler
allocates a fresh account-scope sequence number (the counter advances by
one), emits exactly one durable update carrying the new value together with
version expectedVersion + 1 and stamped with that sequence number, and the
success reply carries version expectedVersion + 1. -/
theorem C8_success_emission :
    (∀ userId tok sid m : String, ∀ v : Int, ∀ st : Store, ∀ sess : Session,
      sid ≠ "" → findSession st.sessions sid userId = some sess →
      sess.metadataVersion = v →
      (updateMetadata userId tok st ⟨.jstr sid, .jstr m, .jnum v⟩).2.2 =
        [.updateSession sid (st.userSeqs userId + 1) tok (some (m, v + 1))
          none] ∧
      (updateMetadata userId tok st ⟨.jstr sid, .jstr m, .jnum v⟩).2.1 =
        .success (v + 1) m ∧
      (updateMetadata userId tok st
        ⟨.jstr sid, .jstr m, .jnum v⟩).1.userSeqs userId =
        st.userSeqs userId + 1) ∧
    (∀ userId tok sid : String, ∀ av : Option String, ∀ v : Int,
      ∀ st : Store, ∀ sess : Session,
      sid ≠ "" → findSession st.sessions sid userId = some sess →
      sess.agentStateVersion = v →
      (updateState userId tok st
        ⟨.jstr sid, (match av with | some s => .jstr s | none => .jnull),
          .jnum v⟩).2.2 =
        [.updateSession sid (st.userSeqs userId + 1) tok none
          (some (av, v + 1))] ∧
      (updateState userId tok st
        ⟨.jstr sid, (match av with | some s => .jstr s | none => .jnull),
          .jnum v⟩).2.1 = .success (v + 1) av ∧
      (updateState userId tok st
        ⟨.jstr sid, (match av with | some s => .jstr s | none => .jnull),
          .jnum v⟩).1.userSeqs userId = st.userSeqs userId + 1) ∧
    (∀ userId tok : String, ∀ s : Option String, ∀ v now : Int,
      ∀ st : Store, ∀ acc : Account,
      findAccount st.accounts userId = some acc → acc.settingsVersion = v →
      (updateSettings userId tok st s v now).2.2 =
        [.accountUpdate userId (s, v + 1) (st.userSeqs userId + 1) tok] ∧
      (updateSettings userId tok st s v now).2.1 = .success (v + 1) ∧
      (updateSettings userId tok st s v now).1.userSeqs userId =
        st.userSeqs userId + 1) := by
  refine ⟨?_, ?_, ?_⟩
  · intro userId tok sid m v st sess hsid hfind hv
    rw [meta_step_success userId tok sid m v st sess hsid hfind hv]
    exact ⟨rfl, rfl, by simp⟩
  · intro userId tok sid av v st sess hsid hfind hv
    rw [state_step_success userId tok sid av v st sess hsid hfind hv]
    exact ⟨rfl, rfl, by simp⟩
  · intro userId tok s v now st acc hfind hv
    rw [settings_step_success userId tok s v now st acc hfind hv]
    exact ⟨rfl, rfl, by simp⟩

/-- Closed instance of `C8_success_emission` on all three fields. -/
theorem C8_witness :
    ((updateMetadata "u1" "t" sampleStore
        ⟨.jstr "s1", .jstr "b", .jnum 0⟩).2.2 =
      [.updateSession "s1" 1 "t" (some ("b", 1)) none] ∧
     (updateMetadata "u1" "t" sampleStore
        ⟨.jstr "s1", .jstr "b", .jnum 0⟩).2.1 = .success 1 "b" ∧
     (updateMetadata "u1" "t" sampleStore
        ⟨.jstr "s1", .jstr "b", .jnum 0⟩).1.userSeqs "u1" =
      sampleStore.userSeqs "u1" + 1) ∧
    ((updateState "u1" "t" sampleStore
        ⟨.jstr "s1", .jstr "w", .jnum 0⟩).2.2 =
      [.updateSession "s1" 1 "t" none (some (some "w", 1))] ∧
     (updateState "u1" "t" sampleStore
        ⟨.jstr "s1", .jstr "w", .jnum 0⟩).2.1 = .success 1 (some "w") ∧
     (updateState "u1" "t" sampleStore
        ⟨.jstr "s1", .jstr "w", .jnum 0⟩).1.userSeqs "u1" =
      sampleStore.userSeqs "u1" + 1) ∧
    ((updateSettings "u1" "t" sampleStore (some "x") 0 9).2.2 =
      [.accountUpdate "u1" (some "x", 1) 1 "t"] ∧
     (updateSettings "u1" "t" sampleStore (some "x") 0 9).2.1 = .success 1 ∧
     (updateSettings "u1" "t" sampleStore (some "x") 0 9).1.userSeqs "u1" =
      sampleStore.userSeqs "u1" + 1) :=
  ⟨C8_success_emission.1 "u1" "t" "s1" "b" 0 sampleStore sampleSession
      (by decide) (by rfl) (by rfl),
   C8_success_emission.2.1 "u1" "t" "s1" (some "w") 0 sampleStore
      sampleSession (by decide) (by rfl) (by rfl),
   C8_success_emission.2.2 "u1" "t" (some "x") 0 9 sampleStore sampleAccount
      (by rfl) (by rfl)⟩

/-- The sample session after a concurrent writer committed metadata "b" with
version 1 while a slower handler still holds the version-0 snapshot. -/
def racedSession : Session :=
  { sampleSession with metadata := "b", metadataVersion := 1 }

/-- The store as it stands when the slower handler reaches its conditional
update. -/
def racedStore : Store := { sampleStore with sessions := [racedSession] }

/-- C2 counterexample: the handler read its snapshot (version 0, value "a"),
then a concurrent write committed (version 1, value "b") before its
conditional update. The conditional update fails, and the conflict reply
carries the stale snapshot (version 0, value "a") — not the field's true
current value and version. -/
theorem C2_counterexample :
    (updateMetadataCore "u1" "t" (some sampleSession) racedStore
      ⟨.jstr "s1", .jstr "m", .jnum 0⟩).2.1 =
      MetaReply.versionMismatch 0 "a" ∧
    findSession racedStore.sessions "s1" "u1" = some racedSession ∧
    racedSession.metadataVersion = 1 ∧ racedSession.metadata = "b" := by
  refine ⟨by rfl, by rfl, rfl, rfl⟩

/-- C2 (amended): every conflict reply of the session metadata and
agent-state handlers carries the value and version obtained by the handler's
initial read — stale when a concurrent write commits between that read and
the conditional update — whereas the account-settings route re-reads the
account after a failed conditional update and replies with that re-read's
version and value (the value JS-coerced: missing account or empty string
becomes null). -/
theorem C2_conflict_reply_provenance :
    (∀ userId tok sid m : String, ∀ v w : Int, ∀ md : String,
      ∀ st : Store, ∀ sess : Session,
      sid ≠ "" →
      (updateMetadataCore userId tok (some sess) st
        ⟨.jstr sid, .jstr m, .jnum v⟩).2.1 = .versionMismatch w md →
      w = sess.metadataVersion ∧ md = sess.metadata) ∧
    (∀ userId tok sid : String, ∀ av : Option String, ∀ v w : Int,
      ∀ asv : Option String, ∀ st : Store, ∀ sess : Session,
      sid ≠ "" →
      (updateStateCore userId tok (some sess) st
        ⟨.jstr sid, (match av with | some s => .jstr s | none => .jnull),
          .jnum v⟩).2.1 = .versionMismatch w asv →
      w = sess.agentStateVersion ∧ asv = sess.agentState) ∧
    (∀ userId tok : String, ∀ s : Option String, ∀ v now : Int,
      ∀ stU stR : Store, ∀ cur : Account,
      cur.settingsVersion = v →
      stU.accounts.countP
        (fun a => a.id = userId ∧ a.settingsVersion = v) = 0 →
      (updateSettingsCore userId tok (some cur) stU stR s v now).2.1 =
        .versionMismatch (versionOrZero (findAccount stR.accounts userId))
          (settingsOrNull (findAccount stR.accounts userId))) := by
  refine ⟨?_, ?_, ?_⟩
  · intro userId tok sid m v w md st sess hsid hrep
    simp only [updateMetadataCore, truthy, isStr, isNum] at hrep
    rw [if_neg (by simp [hsid])] at hrep
    by_cases hv : sess.metadataVersion = v
    · rw [if_neg (not_not_intro hv)] at hrep
      by_cases hc : (updateWhere st.sessions
          (fun r => r.id = sid ∧ r.metadataVersion = v)
          (fun r => { r with metadata := m,
                             metadataVersion := v + 1 })).2 = 0
      · rw [if_pos hc] at hrep
        simp only [MetaReply.versionMismatch.injEq] at hrep
        exact ⟨hrep.1.symm, hrep.2.symm⟩
      · rw [if_neg hc] at hrep
        exact absurd hrep (by simp)
    · rw [if_pos hv] at hrep
      simp only [MetaReply.versionMismatch.injEq] at hrep
      exact ⟨hrep.1.symm, hrep.2.symm⟩
  · intro userId tok sid av v w asv st sess hsid hrep
    cases av with
    | some s0 =>
      simp only [updateStateCore, truthy, isStr, isNum, strOrNull] at hrep
      rw [if_neg (by simp [hsid])] at hrep
      by_cases hv : sess.agentStateVersion = v
      · rw [if_neg (not_not_intro hv)] at hrep
        by_cases hc : (updateWhere st.sessions
            (fun r => r.id = sid ∧ r.agentStateVersion = v)
            (fun r => { r with agentState := some s0,
                               agentStateVersion := v + 1 })).2 = 0
        · rw [if_pos hc] at hrep
          simp only [StateReply.versionMismatch.injEq] at hrep
          exact ⟨hrep.1.symm, hrep.2.symm⟩
        · rw [if_neg hc] at hrep
          exact absurd hrep (by simp)
      · rw [if_pos hv] at hrep
        simp only [StateReply.versionMismatch.injEq] at hrep
        exact ⟨hrep.1.symm, hrep.2.symm⟩
    | none =>
      simp only [updateStateCore, truthy, isStr, isNum, strOrNull] at hrep
      rw [if_neg (by simp [hsid])] at hrep
      by_cases hv : sess.agentStateVersion = v
      · rw [if_neg (not_not_intro hv)] at hrep
        by_cases hc : (updateWhere st.sessions
            (fun r => r.id = sid ∧ r.agentStateVersion = v)
            (fun r => { r with agentState := none,
                               agentStateVersion := v + 1 })).2 = 0
        · rw [if_pos hc] at hrep
          simp only [StateReply.versionMismatch.injEq] at hrep
          exact ⟨hrep.1.symm, hrep.2.symm⟩
        · rw [if_neg hc] at hrep
          exact absurd hrep (by simp)
      · rw [if_pos hv] at hrep
        simp only [StateReply.versionMismatch.injEq] at hrep
        exact ⟨hrep.1.symm, hrep.2.symm⟩
  · intro userId tok s v now stU stR cur hv hc
    simp only [updateSettingsCore, updateWhere]
    rw [if_neg (not_not_intro hv), if_pos hc]

/-- The sample account after a concurrent settings write committed version 1
with value "ncfg". -/
def racedAccount : Account :=
  { sampleAccount with settings := some "ncfg", settingsVersion := 1 }

/-- The store at (and after) the slow settings handler's failed conditional
update. -/
def racedAccStore : Store := { sampleStore with accounts := [racedAccount] }

/-- Closed instance of `C2_conflict_reply_provenance` on all three parts. -/
theorem C2_witness :
    ((0 : Int) = sampleSession.metadataVersion ∧
      "a" = sampleSession.metadata) ∧
    ((0 : Int) = sampleSession.agentStateVersion ∧
      none = sampleSession.agentState) ∧
    (updateSettingsCore "u1" "t" (some sampleAccount) racedAccStore
      racedAccStore (some "x") 0 9).2.1 =
      .versionMismatch (versionOrZero (findAccount racedAccStore.accounts
        "u1")) (settingsOrNull (findAccount racedAccStore.accounts "u1")) :=
  ⟨C2_conflict_reply_provenance.1 "u1" "t" "s1" "m" 0 0 "a" racedStore
      sampleSession (by decide) (by rfl),
   C2_conflict_reply_provenance.2.1 "u1" "t" "s1" none 5 0 none sampleStore
      sampleSession (by decide) (by rfl),
   C2_conflict_reply_provenance.2.2 "u1" "t" (some "x") 0 9 racedAccStore
      racedAccStore sampleAccount (by rfl) (by rfl)⟩

/-- C1: for every versioned field (session metadata via `update-metadata`,
session agent state via `update-state`, account settings via the settings
route), a conditional update succeeds only if the caller-supplied
expectedVersion equals the stored version; on success it sets the value and
increments the version by exactly one; and for any number of serialized
updates to the same field with the same expectedVersion, exactly one succeeds
while all the others observe a version conflict. -/
theorem C1_cas_protocol :
    (∀ userId tok sid m m' : String, ∀ v w : Int, ∀ st : Store,
      sid ≠ "" →
      (updateMetadata userId tok st ⟨.jstr sid, .jstr m, .jnum v⟩).2.1 =
        .success w m' →
      ∃ sess, findSession st.sessions sid userId = some sess ∧
        sess.metadataVersion = v) ∧
    (∀ userId tok sid m : String, ∀ v : Int, ∀ st : Store, ∀ sess : Session,
      sid ≠ "" → findSession st.sessions sid userId = some sess →
      sess.metadataVersion = v →
      (updateMetadata userId tok st ⟨.jstr sid, .jstr m, .jnum v⟩).2.1 =
        .success (v + 1) m ∧
      findSession (updateMetadata userId tok st
        ⟨.jstr sid, .jstr m, .jnum v⟩).1.sessions sid userId =
        some { sess with metadata := m, metadataVersion := v + 1 }) ∧
    (∀ userId tok sid : String, ∀ v : Int, ∀ st : Store, ∀ sess : Session,
      ∀ m0 : String, ∀ rest : List String,
      sid ≠ "" → findSession st.sessions sid userId = some sess →
      sess.metadataVersion = v →
      (runSteps (metaStep userId tok sid v) st (m0 :: rest)).2.countP
        MetaReply.isSuccess = 1 ∧
      ∀ r ∈ (runSteps (metaStep userId tok sid v) st (m0 :: rest)).2,
        MetaReply.isSuccess r = true ∨ MetaReply.isConflict r = true) ∧
    (∀ userId tok sid : String, ∀ av asv : Option String, ∀ v w : Int,
      ∀ st : Store,
      sid ≠ "" →
      (updateState userId tok st
        ⟨.jstr sid, (match av with | some s => .jstr s | none => .jnull),
          .jnum v⟩).2.1 = .success w asv →
      ∃ sess, findSession st.sessions sid userId = some sess ∧
        sess.agentStateVersion = v) ∧
    (∀ userId tok sid : String, ∀ av : Option String, ∀ v : Int,
      ∀ st : Store, ∀ sess : Session,
      sid ≠ "" → findSession st.sessions sid userId = some sess →
      sess.agentStateVersion = v →
      (updateState userId tok st
        ⟨.jstr sid, (match av with | some s => .jstr s | none => .jnull),
          .jnum v⟩).2.1 = .success (v + 1) av ∧
      findSession (updateState userId tok st
        ⟨.jstr sid, (match av with | some s => .jstr s | none => .jnull),
          .jnum v⟩).1.sessions sid userId =
        some { sess with agentState := av, agentStateVersion := v + 1 }) ∧
    (∀ userId tok sid : String, ∀ v : Int, ∀ st : Store, ∀ sess : Session,
      ∀ a0 : Option String, ∀ rest : List (Option String),
      sid ≠ "" → findSession st.sessions sid userId = some sess →
      sess.agentStateVersion = v →
      (runSteps (stateStep userId tok sid v) st (a0 :: rest)).2.countP
        StateReply.isSuccess = 1 ∧
      ∀ r ∈ (runSteps (stateStep userId tok sid v) st (a0 :: rest)).2,
        StateReply.isSuccess r = true ∨ StateReply.isConflict r = true) ∧
    (∀ userId tok : String, ∀ s : Option String, ∀ v w now : Int,
      ∀ st : Store,
      (updateSettings userId tok st s v now).2.1 = .success w →
      ∃ acc, findAccount st.accounts userId = some acc ∧
        acc.settingsVersion = v) ∧
    (∀ userId tok : String, ∀ s : Option String, ∀ v now : Int,
      ∀ st : Store, ∀ acc : Account,
      findAccount st.accounts userId = some acc → acc.settingsVersion = v →
      (updateSettings userId tok st s v now).2.1 = .success (v + 1) ∧
      findAccount (updateSettings userId tok st s v now).1.accounts userId =
        some { acc with settings := s, settingsVersion := v + 1,
                        updatedAt := now }) ∧
    (∀ userId tok : String, ∀ v now : Int, ∀ st : Store, ∀ acc : Account,
      ∀ s0 : Option String, ∀ rest : List (Option String),
      findAccount st.accounts userId = some acc → acc.settingsVersion = v →
      (runSteps (settingsStep userId tok v now) st (s0 :: rest)).2.countP
        SettingsReply.isSuccess = 1 ∧
      ∀ r ∈ (runSteps (settingsStep userId tok v now) st (s0 :: rest)).2,
        SettingsReply.isSuccess r = true ∨
          SettingsReply.isConflict r = true) := by
  refine ⟨?_, ?_, ?_, ?_, ?_, ?_, ?_, ?_, ?_⟩
  · intro userId tok sid m m' v w st hsid hsucc
    cases hf : findSession st.sessions sid userId with
    | none =>
      rw [meta_step_notfound userId tok sid m v st hsid hf] at hsucc
      exact absurd hsucc (by simp)
    | some sess =>
      by_cases hv : sess.metadataVersion = v
      · exact ⟨sess, rfl, hv⟩
      · rw [meta_step_conflict userId tok sid m v st sess hsid hf hv] at hsucc
        exact absurd hsucc (by simp)
  · intro userId tok sid m v st sess hsid hfind hv
    refine ⟨?_, meta_success_find userId tok sid m v st sess hsid hfind hv⟩
    rw [meta_step_success userId tok sid m v st sess hsid hfind hv]
  · intro userId tok sid v st sess m0 rest hsid hfind hv
    exact meta_fold_exclusive userId tok sid v st sess hsid hfind hv m0 rest
  · intro userId tok sid av asv v w st hsid hsucc
    cases hf : findSession st.sessions sid userId with
    | none =>
      rw [state_step_notfound userId tok sid av v st hsid hf] at hsucc
      exact absurd hsucc (by simp)
    | some sess =>
      by_cases hv : sess.agentStateVersion = v
      · exact ⟨sess, rfl, hv⟩
      · rw [state_step_conflict userId tok sid av v st sess hsid hf hv]
          at hsucc
        exact absurd hsucc (by simp)
  · intro userId tok sid av v st sess hsid hfind hv
    refine ⟨?_, state_success_find userId tok sid av v st sess hsid hfind hv⟩
    rw [state_step_success userId tok sid av v st sess hsid hfind hv]
  · intro userId tok sid v st sess a0 rest hsid hfind hv
    exact state_fold_exclusive userId tok sid v st sess hsid hfind hv a0 rest
  · intro userId tok s v w now st hsucc
    cases hf : findAccount st.accounts userId with
    | none =>
      rw [settings_step_notfound userId tok s v now st hf] at hsucc
      exact absurd hsucc (by simp)
    | some acc =>
      by_cases hv : acc.settingsVersion = v
      · exact ⟨acc, rfl, hv⟩
      · rw [settings_step_conflict userId tok s v now st acc hf hv] at hsucc
        exact absurd hsucc (by simp)
  · intro userId tok s v now st acc hfind hv
    refine ⟨?_, settings_success_find userId tok s v now st acc hfind hv⟩
    rw [settings_step_success userId tok s v now st acc hfind hv]
  · intro userId tok v now st acc s0 rest hfind hv
    exact settings_fold_exclusive userId tok v now st acc hfind hv s0 rest

/-- Closed instance of `C1_cas_protocol`: all nine parts applied at the
sample store with expectedVersion 0. -/
theorem C1_witness :
    (∃ sess, findSession sampleStore.sessions "s1" "u1" = some sess ∧
      sess.metadataVersion = 0) ∧
    ((updateMetadata "u1" "t" sampleStore
        ⟨.jstr "s1", .jstr "b", .jnum 0⟩).2.1 = .success 1 "b" ∧
      findSession (updateMetadata "u1" "t" sampleStore
        ⟨.jstr "s1", .jstr "b", .jnum 0⟩).1.sessions "s1" "u1" =
        some { sampleSession with metadata := "b", metadataVersion := 1 }) ∧
    ((runSteps (metaStep "u1" "t" "s1" 0) sampleStore
        ["b", "c", "d"]).2.countP MetaReply.isSuccess = 1 ∧
      ∀ r ∈ (runSteps (metaStep "u1" "t" "s1" 0) sampleStore
        ["b", "c", "d"]).2,
        MetaReply.isSuccess r = true ∨ MetaReply.isConflict r = true) ∧
    (∃ sess, findSession sampleStore.sessions "s1" "u1" = some sess ∧
      sess.agentStateVersion = 0) ∧
    ((updateState "u1" "t" sampleStore
        ⟨.jstr "s1", .jstr "w", .jnum 0⟩).2.1 = .success 1 (some "w") ∧
      findSession (updateState "u1" "t" sampleStore
        ⟨.jstr "s1", .jstr "w", .jnum 0⟩).1.sessions "s1" "u1" =
        some { sampleSession with agentState := some "w",
                                  agentStateVersion := 1 }) ∧
    ((runSteps (stateStep "u1" "t" "s1" 0) sampleStore
        [some "w", none]).2.countP StateReply.isSuccess = 1 ∧
      ∀ r ∈ (runSteps (stateStep "u1" "t" "s1" 0) sampleStore
        [some "w", none]).2,
        StateReply.isSuccess r = true ∨ StateReply.isConflict r = true) ∧
    (∃ acc, findAccount sampleStore.accounts "u1" = some acc ∧
      acc.settingsVersion = 0) ∧
    ((updateSettings "u1" "t" sampleStore (some "x") 0 9).2.1 =
        .success 1 ∧
      findAccount (updateSettings "u1" "t" sampleStore
        (some "x") 0 9).1.accounts "u1" =
        some { sampleAccount with settings := some "x",
                                  settingsVersion := 1, updatedAt := 9 }) ∧
    ((runSteps (settingsStep "u1" "t" 0 9) sampleStore
        [some "x", none]).2.countP SettingsReply.isSuccess = 1 ∧
      ∀ r ∈ (runSteps (settingsStep "u1" "t" 0 9) sampleStore
        [some "x", none]).2,
        SettingsReply.isSuccess r = true ∨
          SettingsReply.isConflict r = true) :=
  ⟨C1_cas_protocol.1 "u1" "t" "s1" "b" "b" 0 1 sampleStore (by decide)
      (by rfl),
   C1_cas_protocol.2.1 "u1" "t" "s1" "b" 0 sampleStore sampleSession
      (by decide) (by rfl) (by rfl),
   C1_cas_protocol.2.2.1 "u1" "t" "s1" 0 sampleStore sampleSession "b"
      ["c", "d"] (by decide) (by rfl) (by rfl),
   C1_cas_protocol.2.2.2.1 "u1" "t" "s1" (some "w") (some "w") 0 1
      sampleStore (by decide) (by rfl),
   C1_cas_protocol.2.2.2.2.1 "u1" "t" "s1" (some "w") 0 sampleStore
      sampleSession (by decide) (by rfl) (by rfl),
   C1_cas_protocol.2.2.2.2.2.1 "u1" "t" "s1" 0 sampleStore sampleSession
      (some "w") [none] (by decide) (by rfl) (by rfl),
   C1_cas_protocol.2.2.2.2.2.2.1 "u1" "t" (some "x") 0 1 9 sampleStore
      (by rfl),
   C1_cas_protocol.2.2.2.2.2.2.2.1 "u1" "t" (some "x") 0 9 sampleStore
      sampleAccount (by rfl) (by rfl),
   C1_cas_protocol.2.2.2.2.2.2.2.2 "u1" "t" 0 9 sampleStore sampleAccount
      (some "x") [none] (by rfl) (by rfl)⟩
